import Mathlib

/-!
Verification development for the `dnsseeder` crawler (`dnsseed.go`).

The embedding models:
* the constants of `dnsseed.go` (`nodeTimeout`, `requiredServices`);
* the address manager ("store"), whose Go source (`manager.go`) is not part
  of the excerpt: its operations are modelled from the specification;
* the crawl worker goroutine of `creep` as a trace of actions determined by
  the outcome of its network interactions;
* the crawl main loop decisions (bootstrap seeding, idle sleep);
* the startup sequence of `main` (config load, manager construction, default
  port parsing, `--seeder` injection).

Machine integers are modelled as `Nat`: all quantities involved (ports,
service-flag bitfields, timestamps in seconds) stay far below their Go
bounds in every statement below, so no wrap-around modelling is needed.
IP addresses are abstracted as `Nat` keys (the store keys entries by the
string form of the IP, a key uniquely determined by the IP).
-/

/-- `requiredServices` of dnsseed.go: `wire.SFNodeNetwork`, which is bit 0
of the service-flag bitfield, i.e. the value 1. -/
def requiredServices : Nat := 1

/-- `nodeTimeout` of dnsseed.go: `time.Second * 3`, in seconds. -/
def nodeTimeoutSeconds : Nat := 3

/-- The number of one-second steps of the idle sleep of `creep`
(`for i := 0; i < 600; i++`). -/
def idleSleepSteps : Nat := 600

/-- Modelled from the spec: the store's hard entry cap (50,000 entries;
`manager.go` is not part of the excerpt). -/
def maxStoreEntries : Nat := 50000

/-- Modelled from the spec: the minimum re-attempt interval per address and
the staleness threshold used by `Addresses()` eligibility (60 seconds). -/
def staleThresholdSeconds : Nat := 60

/-- A `wire.NetAddress` as used by dnsseed.go: an IP, a port and a
service-flag bitfield. -/
structure NetAddress where
  ip : Nat
  port : Nat
  services : Nat
deriving DecidableEq, Repr

/-- Modelled from the spec: one entry of the address store (`manager.go` is
not part of the excerpt).  Per the spec's data model, `services` is "set on
first successful version exchange; zero if never succeeded" and
`subnetworkID` is "set on successful version exchange"; a zero timestamp
means "never". -/
structure Node where
  ip : Nat
  port : Nat
  services : Nat
  subnetworkID : Nat
  firstSeen : Nat
  lastAttempt : Nat
  lastSuccess : Nat
deriving DecidableEq, Repr

/-- Modelled from the spec: the address store, a table of entries unique by
IP (`manager.go` is not part of the excerpt). -/
structure Manager where
  nodes : List Node
deriving DecidableEq, Repr

def Manager.empty : Manager := ⟨[]⟩

/-- `AddressCount()`: total number of entries. -/
def Manager.AddressCount (m : Manager) : Nat := m.nodes.length

/-- Lookup of the entry keyed by `ip`. -/
def Manager.findNode (m : Manager) (ip : Nat) : Option Node :=
  m.nodes.find? (fun n => n.ip == ip)

/-- Modelled from the spec: the routability filter of `AddAddresses`
("addresses with invalid IPs, unspecified/loopback/multicast/broadcast
ranges, or non-routable port 0 are filtered out"), abstracted to rejecting
the zero IP key and port 0. -/
def routableAddr (a : NetAddress) : Bool := a.ip != 0 && a.port != 0

/-- Modelled from the spec: insertion of one address by `AddAddresses`:
skip non-routable addresses, skip IPs already present, reject silently
beyond the cap; otherwise create an entry with `firstSeen = now`, with
`services` and `subnetworkID` zero (they are set only by a successful
version exchange, i.e. by `Good`) and with zero attempt timestamps. -/
def insertAddress (now : Nat) (m : Manager) (a : NetAddress) : Manager × Nat :=
  if !routableAddr a then (m, 0)
  else if m.nodes.any (fun n => n.ip == a.ip) then (m, 0)
  else if maxStoreEntries ≤ m.nodes.length then (m, 0)
  else ({ nodes := m.nodes ++ [⟨a.ip, a.port, 0, 0, now, 0, 0⟩] }, 1)

/-- Modelled from the spec: `AddAddresses(list) → count_new`. -/
def Manager.AddAddresses (m : Manager) (now : Nat) (addrs : List NetAddress) :
    Manager × Nat :=
  addrs.foldl
    (fun acc a =>
      let r := insertAddress now acc.1 a
      (r.1, acc.2 + r.2))
    (m, 0)

/-- Modelled from the spec: `Attempt(ip)` sets `lastAttempt = now` for the
matching entry if present and is a no-op otherwise. -/
def Manager.Attempt (m : Manager) (now ip : Nat) : Manager :=
  { nodes := m.nodes.map (fun n => if n.ip == ip then { n with lastAttempt := now } else n) }

/-- Modelled from the spec: `Good(ip, services, subnetworkID)` sets
`lastSuccess = now` and `lastAttempt = now` and records `services` and
`subnetworkID`; it creates the entry if it did not exist (with
`firstSeen = now`; the spec gives no port for a created entry, modelled
as 0). -/
def Manager.Good (m : Manager) (now ip servs subnetwork : Nat) : Manager :=
  if m.nodes.any (fun n => n.ip == ip) then
    { nodes := m.nodes.map (fun n =>
        if n.ip == ip then
          { n with services := servs, subnetworkID := subnetwork,
                   lastSuccess := now, lastAttempt := now }
        else n) }
  else
    { nodes := m.nodes ++ [⟨ip, 0, servs, subnetwork, now, now, now⟩] }

/-- Modelled from the spec: `Addresses()` eligibility — never attempted, or
last attempted at least 60 seconds ago. -/
def eligibleForCrawl (now : Nat) (n : Node) : Bool :=
  n.lastAttempt == 0 || staleThresholdSeconds ≤ now - n.lastAttempt

def Node.toNetAddress (n : Node) : NetAddress := ⟨n.ip, n.port, n.services⟩

/-- Modelled from the spec: `Addresses()` returns the eligible entries.
Per the spec's design notes, the source's `Addresses()` "returns a snapshot
without marking entries in-flight": the call does not mutate the store and
keeps no in-flight bookkeeping.  The randomized order of the returned batch
is abstracted away (all properties below are membership properties). -/
def Manager.Addresses (m : Manager) (now : Nat) : List NetAddress :=
  (m.nodes.filter (eligibleForCrawl now)).map Node.toNetAddress

/-- A store mutation event, tagged with the wall-clock second at which it
is issued (timestamps of live events are positive; zero means "never"). -/
inductive MgrEvent where
  | add (t : Nat) (addrs : List NetAddress)
  | attempt (t : Nat) (ip : Nat)
  | good (t ip servs subnetwork : Nat)
deriving DecidableEq, Repr

def MgrEvent.time : MgrEvent → Nat
  | .add t _ => t
  | .attempt t _ => t
  | .good t _ _ _ => t

def applyEvent (m : Manager) : MgrEvent → Manager
  | .add t addrs => (m.AddAddresses t addrs).1
  | .attempt t ip => m.Attempt t ip
  | .good t ip sv sn => m.Good t ip sv sn

def applyEvents (m : Manager) (evs : List MgrEvent) : Manager :=
  evs.foldl applyEvent m

/-- The store state reached from the empty store by a sequence of events. -/
def runEvents (evs : List MgrEvent) : Manager :=
  applyEvents Manager.empty evs

/-! ## The crawl worker (`creep`, dnsseed.go lines 114-151) -/

/-- One step of a crawl worker goroutine, in program order:
`peer.NewOutboundPeer`, `amgr.Attempt`, `net.DialTimeout`,
`p.AssociateConnection`, the `OnVersion` listener body (`amgr.Good` then
`p.QueueMessage(getaddr)`), the `OnAddr` listener body
(`amgr.AddAddresses`), and `p.Disconnect`. -/
inductive WorkerAction where
  | newOutboundPeer
  | attempt (ip : Nat)
  | dial
  | associateConnection
  | good (ip servs subnetwork : Nat)
  | queueGetAddr
  | addAddresses (addrs : List NetAddress)
  | disconnect
deriving DecidableEq, Repr

/-- The outcome of the worker's network interactions, resolved ahead of
time: whether `peer.NewOutboundPeer` succeeds, whether the 3-second TCP
dial succeeds, whether the `select` on `onVersion` wins against the
`time.After(nodeTimeout)` timer (i.e. the remote version message is
received within `nodeTimeout` of connecting), the services and subnetwork
ID carried by that version message, whether the `select` on `onAddr` wins
against its `time.After(nodeTimeout)` timer, and the address list carried
by the `addr` message. -/
structure WorkerEnv where
  newPeerOk : Bool
  dialOk : Bool
  versionOk : Bool
  remoteServices : Nat
  remoteSubnetworkID : Nat
  addrOk : Bool
  remoteAddrs : List NetAddress
deriving Repr

/-- The trace of one worker goroutine of `creep` (dnsseed.go lines
114-151).  If `NewOutboundPeer` fails the worker returns at once; it then
calls `Attempt` and dials, returning on dial failure; after
`AssociateConnection` it waits for the version message, disconnecting and
returning on timeout (the `OnVersion` listener runs `Good` and queues
`getaddr` exactly when the version message arrives); it then waits for the
`addr` message (whose `OnAddr` listener runs `AddAddresses`), and
disconnects at the end of every remaining path. -/
def creepWorker (env : WorkerEnv) (a : NetAddress) : List WorkerAction :=
  if !env.newPeerOk then [WorkerAction.newOutboundPeer]
  else if !env.dialOk then
    [WorkerAction.newOutboundPeer, WorkerAction.attempt a.ip, WorkerAction.dial]
  else if !env.versionOk then
    [WorkerAction.newOutboundPeer, WorkerAction.attempt a.ip, WorkerAction.dial,
     WorkerAction.associateConnection, WorkerAction.disconnect]
  else if !env.addrOk then
    [WorkerAction.newOutboundPeer, WorkerAction.attempt a.ip, WorkerAction.dial,
     WorkerAction.associateConnection,
     WorkerAction.good a.ip env.remoteServices env.remoteSubnetworkID,
     WorkerAction.queueGetAddr, WorkerAction.disconnect]
  else
    [WorkerAction.newOutboundPeer, WorkerAction.attempt a.ip, WorkerAction.dial,
     WorkerAction.associateConnection,
     WorkerAction.good a.ip env.remoteServices env.remoteSubnetworkID,
     WorkerAction.queueGetAddr, WorkerAction.addAddresses env.remoteAddrs,
     WorkerAction.disconnect]

/-- The store mutation (if any) performed by one worker action, stamped at
second `t`. -/
def actionStoreEvent (t : Nat) : WorkerAction → Option MgrEvent
  | .attempt ip => some (.attempt t ip)
  | .good ip sv sn => some (.good t ip sv sn)
  | .addAddresses addrs => some (.add t addrs)
  | _ => none

/-- The store mutations performed along a worker trace. -/
def storeEventsAt (t : Nat) (tr : List WorkerAction) : List MgrEvent :=
  tr.filterMap (actionStoreEvent t)

/-! ## The crawl main loop (`creep`, dnsseed.go lines 85-154) -/

/-- What one iteration of the `creep` main loop decided to do. -/
structure IterationTrace where
  calledSeedFromDNS : Bool
  sleptIdle : Bool
  spawnedOn : List NetAddress
deriving Repr

/-- One iteration of the `creep` main loop (dnsseed.go lines 85-153):
fetch `peers := amgr.Addresses()`; if the batch is empty and
`amgr.AddressCount() == 0`, call `connmgr.SeedFromDNS` (which feeds
`seedAddrs` to `amgr.AddAddresses`) and refresh `peers`; if `peers` is
still empty, enter the idle sleep; otherwise spawn a worker per address. -/
def creepIteration (m : Manager) (now : Nat) (seedAddrs : List NetAddress) :
    IterationTrace × Manager :=
  if (m.Addresses now).isEmpty && (m.AddressCount == 0) then
    let m1 := (m.AddAddresses now seedAddrs).1
    let peers1 := m1.Addresses now
    if peers1.isEmpty then (⟨true, true, []⟩, m1)
    else (⟨true, false, peers1⟩, m1)
  else
    let peers := m.Addresses now
    if peers.isEmpty then (⟨false, true, []⟩, m)
    else (⟨false, false, peers⟩, m)

/-- The idle sleep of `creep` (dnsseed.go lines 96-102), parameterized by
the shutdown flag as observed at the check following the `i`-th one-second
sleep.  `idleSleepFrom shutdownAt fuel i` returns the total number of
seconds slept and whether the loop returned early due to shutdown. -/
def idleSleepFrom (shutdownAt : Nat → Bool) : Nat → Nat → Nat × Bool
  | 0, i => (i, false)
  | fuel + 1, i =>
    if shutdownAt i then (i + 1, true) else idleSleepFrom shutdownAt fuel (i + 1)

/-- The full idle sleep: 600 one-second steps, each followed by a check of
the `systemShutdown` flag. -/
def idleSleep (shutdownAt : Nat → Bool) : Nat × Bool :=
  idleSleepFrom shutdownAt idleSleepSteps 0

/-! ## Startup (`main`, dnsseed.go lines 157-216) -/

/-- The part of the configuration relevant to startup: the `--seeder`
flag (the empty string when unset). -/
structure SeederConfig where
  seeder : String
deriving Repr

/-- The outcomes of the injected startup steps of `main`: `loadConfig`,
`NewManager`, `strconv.Atoi(activeNetParams.DefaultPort)` (abstracted to
its `Option` result), `net.ParseIP` and `net.LookupHost`. -/
structure StartupEnv where
  loadConfig : Except String SeederConfig
  newManager : Except String Unit
  defaultPortParsed : Option Nat
  parseIP : String → Option Nat
  lookupHost : String → Except String (List String)

/-- The observable result of `main`'s startup sequence: either
`os.Exit(1)` after an error message on stderr, or entry into the running
phase with the list of addresses injected from the `--seeder` flag. -/
inductive StartupResult where
  | exitFail (msg : String)
  | running (injected : List NetAddress)
deriving DecidableEq, Repr

/-- `wire.NewNetAddressIPPort(ip, uint16(peersDefaultPort), requiredServices)`
as built by the `--seeder` injection of `main`. -/
def mkSeedAddress (ip port : Nat) : NetAddress := ⟨ip, port, requiredServices⟩

/-- The `--seeder` injection of `main` (dnsseed.go lines 175-193): when the
flag is set, try `net.ParseIP` on it; on failure, look the host up, taking
only the first resolved address (`hostAddrs[0]`) and parsing it; lookup or
parse failures are logged and ignored.  At most one address results. -/
def seederInject (parseIP : String → Option Nat)
    (lookupResult : Except String (List String)) (seeder : String)
    (port : Nat) : List NetAddress :=
  if seeder.length == 0 then []
  else
    match parseIP seeder with
    | some ip => [mkSeedAddress ip port]
    | none =>
      match lookupResult with
      | .error _ => []
      | .ok hostAddrs =>
        match hostAddrs.head? with
        | none => []
        | some h =>
          match parseIP h with
          | none => []
          | some ip => [mkSeedAddress ip port]

/-- The startup sequence of `main` (dnsseed.go lines 157-196): exit 1 with
a message on stderr if `loadConfig`, `NewManager` or the default-port parse
fails; otherwise inject the optional `--seeder` address and run. -/
def mainStartup (env : StartupEnv) : StartupResult :=
  match env.loadConfig with
  | .error e => .exitFail ("loadConfig: " ++ e)
  | .ok cfg =>
    match env.newManager with
    | .error e => .exitFail ("NewManager: " ++ e)
    | .ok _ =>
      match env.defaultPortParsed with
      | none => .exitFail "Invalid peers default port"
      | some port =>
        .running (seederInject env.parseIP (env.lookupHost cfg.seeder) cfg.seeder port)

/-- Whether one of the three fatal startup initialization steps failed. -/
def startupInitFailed (env : StartupEnv) : Bool :=
  (match env.loadConfig with | .error _ => true | .ok _ => false) ||
  (match env.newManager with | .error _ => true | .ok _ => false) ||
  env.defaultPortParsed.isNone

/-! ## Theorems -/

/-- Claim C1: for every crawl worker run against an address, the store
operation `Good(ip, services, subnetworkID)` is performed if and only if
the outbound peer was constructed, the 3-second dial succeeded and the
remote version message was received before the `nodeTimeout` timer fired;
on dial failure, version timeout or disconnect before version the worker's
trace contains no `Good`.  `nodeTimeout` is 3 seconds. -/
theorem worker_good_iff_version (env : WorkerEnv) (a : NetAddress) :
    ((∃ sv sn, WorkerAction.good a.ip sv sn ∈ creepWorker env a) ↔
      (env.newPeerOk = true ∧ env.dialOk = true ∧ env.versionOk = true)) ∧
    nodeTimeoutSeconds = 3 := by
  refine ⟨?_, rfl⟩
  obtain ⟨np, d, v, sv0, sn0, ao, ad⟩ := env
  cases np <;> cases d <;> cases v <;> cases ao <;> simp [creepWorker]

/-- Claim C4: one iteration of the `creep` main loop invokes `SeedFromDNS`
exactly when the candidate batch is empty and `AddressCount()` returns 0,
and never while the store contains an entry. -/
theorem seed_from_dns_only_when_store_empty (m : Manager) (now : Nat)
    (seedAddrs : List NetAddress) :
    ((creepIteration m now seedAddrs).1.calledSeedFromDNS = true ↔
      (m.Addresses now = [] ∧ m.AddressCount = 0)) ∧
    (m.AddressCount ≠ 0 →
      (creepIteration m now seedAddrs).1.calledSeedFromDNS = false) := by
  constructor
  · unfold creepIteration
    by_cases h : ((m.Addresses now).isEmpty && (m.AddressCount == 0)) = true
    · rw [if_pos h]
      simp only [Bool.and_eq_true, List.isEmpty_iff, beq_iff_eq] at h
      by_cases h2 : (((m.AddAddresses now seedAddrs).1.Addresses now).isEmpty) = true <;>
        simp [h2, h]
    · rw [if_neg h]
      simp only [Bool.and_eq_true, List.isEmpty_iff, beq_iff_eq, not_and_or] at h
      by_cases h2 : ((m.Addresses now).isEmpty) = true <;> simp [h2] <;>
        intro h1 hc <;> rcases h with h | h <;> exact h (by simp [h1, hc])
  · intro hc
    unfold creepIteration
    rw [if_neg (by simp [hc])]
    by_cases h2 : ((m.Addresses now).isEmpty) = true <;> simp [h2]

/-- Claim C4 witness: with one stored entry the iteration does not call
`SeedFromDNS`. -/
theorem seed_from_dns_only_when_store_empty_witness :
    (creepIteration (Manager.empty.AddAddresses 1 [⟨5, 16111, 1⟩]).1 2 []).1.calledSeedFromDNS
      = false :=
  (seed_from_dns_only_when_store_empty (Manager.empty.AddAddresses 1 [⟨5, 16111, 1⟩]).1 2 []).2
    (by decide)

/-- If no shutdown is observed during the first `fuel` checks after start
index `i`, the idle loop runs all `fuel` one-second steps. -/
theorem idleSleepFrom_no_shutdown (shutdownAt : Nat → Bool) :
    ∀ fuel i, (∀ j, i ≤ j → j < i + fuel → shutdownAt j = false) →
      idleSleepFrom shutdownAt fuel i = (i + fuel, false) := by
  intro fuel
  induction fuel with
  | zero => intro i _; simp [idleSleepFrom]
  | succ f ih =>
    intro i h
    have h0 : shutdownAt i = false := h i le_rfl (by omega)
    rw [idleSleepFrom, if_neg (by simp [h0])]
    rw [ih (i + 1) (fun j hj1 hj2 => h j (by omega) (by omega))]
    congr 1
    omega

/-- If the shutdown flag is first observed set at check `k`, the idle loop
returns right after the `(k+1)`-th one-second step. -/
theorem idleSleepFrom_shutdown_at (shutdownAt : Nat → Bool) :
    ∀ fuel i k, i ≤ k → k < i + fuel → shutdownAt k = true →
      (∀ j, i ≤ j → j < k → shutdownAt j = false) →
      idleSleepFrom shutdownAt fuel i = (k + 1, true) := by
  intro fuel
  induction fuel with
  | zero => intro i k h1 h2 _ _; omega
  | succ f ih =>
    intro i k h1 h2 h3 h4
    by_cases hik : i = k
    · subst hik
      rw [idleSleepFrom, if_pos h3]
    · have hi : shutdownAt i = false := h4 i le_rfl (by omega)
      rw [idleSleepFrom, if_neg (by simp [hi])]
      exact ih (i + 1) k (by omega) (by omega) h3 (fun j hj1 hj2 => h4 j (by omega) hj2)

/-- Claim C6: with no candidates, `creep` sleeps in 600 one-second steps,
checking the shutdown flag after each step: if the flag is never observed
it sleeps the full 600 seconds without returning, and if the flag is first
observed at check `k` it returns immediately after `k + 1` seconds, i.e.
within one second of the flag being set. -/
theorem creep_idle_sleep_behavior (shutdownAt : Nat → Bool) :
    idleSleepSteps = 600 ∧
    ((∀ j, j < 600 → shutdownAt j = false) → idleSleep shutdownAt = (600, false)) ∧
    (∀ k, k < 600 → shutdownAt k = true → (∀ j, j < k → shutdownAt j = false) →
      idleSleep shutdownAt = (k + 1, true)) := by
  refine ⟨rfl, ?_, ?_⟩
  · intro h
    have := idleSleepFrom_no_shutdown shutdownAt 600 0 (fun j _ hj => h j (by omega))
    simpa [idleSleep, idleSleepSteps] using this
  · intro k hk h3 h4
    have := idleSleepFrom_shutdown_at shutdownAt 600 0 k (by omega) (by omega) h3
      (fun j _ hj => h4 j hj)
    simpa [idleSleep, idleSleepSteps] using this

/-- Claim C6 witness: with the flag first set at check 3 the sleep returns
after 4 seconds. -/
theorem creep_idle_sleep_behavior_witness :
    idleSleep (fun j => decide (3 ≤ j)) = (4, true) :=
  (creep_idle_sleep_behavior (fun j => decide (3 ≤ j))).2.2 3 (by decide) (by decide)
    (by decide)

/-- Claim C5: in every worker trace, the `Attempt(ip)` action strictly
precedes any `Good(ip, ...)` action; in particular `Attempt` is issued
before the TCP dial, and `Good` occurs only after the connection has been
associated. -/
theorem attempt_precedes_good (env : WorkerEnv) (a : NetAddress) :
    (∀ sv sn, WorkerAction.good a.ip sv sn ∈ creepWorker env a →
      List.Sublist [WorkerAction.attempt a.ip, WorkerAction.good a.ip sv sn]
        (creepWorker env a)) ∧
    (WorkerAction.dial ∈ creepWorker env a →
      List.Sublist [WorkerAction.attempt a.ip, WorkerAction.dial] (creepWorker env a)) ∧
    (∀ sv sn, WorkerAction.good a.ip sv sn ∈ creepWorker env a →
      List.Sublist [WorkerAction.associateConnection, WorkerAction.good a.ip sv sn]
        (creepWorker env a)) := by
  obtain ⟨np, d, v, sv0, sn0, ao, ad⟩ := env
  cases np <;> cases d <;> cases v <;> cases ao <;>
    refine ⟨?_, ?_, ?_⟩ <;>
    simp [creepWorker] <;>
    repeat (first
      | exact List.nil_sublist _
      | apply List.Sublist.cons₂
      | apply List.Sublist.cons)

/-- Claim C5 witness: on a fully successful run against IP 5, the trace
contains `Attempt 5` strictly before `Good 5 9 4`. -/
theorem attempt_precedes_good_witness :
    List.Sublist [WorkerAction.attempt 5, WorkerAction.good 5 9 4]
      (creepWorker ⟨true, true, true, 9, 4, true, []⟩ ⟨5, 16111, 1⟩) :=
  (attempt_precedes_good ⟨true, true, true, 9, 4, true, []⟩ ⟨5, 16111, 1⟩).1 9 4 (by decide)

/-- Claim C9: if `NewOutboundPeer` fails, the worker returns before calling
`Attempt`: its trace performs no store mutation at all, so the store (and
hence the crawl eligibility of every address) is left unchanged. -/
theorem newoutboundpeer_failure_leaves_store_unchanged (env : WorkerEnv)
    (a : NetAddress) (m : Manager) (t : Nat) (h : env.newPeerOk = false) :
    storeEventsAt t (creepWorker env a) = [] ∧
    applyEvents m (storeEventsAt t (creepWorker env a)) = m ∧
    (∀ now2, (applyEvents m (storeEventsAt t (creepWorker env a))).Addresses now2 =
      m.Addresses now2) := by
  have h1 : storeEventsAt t (creepWorker env a) = [] := by
    simp [creepWorker, h, storeEventsAt, actionStoreEvent]
  refine ⟨h1, ?_, ?_⟩
  · rw [h1]; rfl
  · intro now2; rw [h1]; rfl

/-- Claim C9 witness: a concrete failed-constructor run leaves a concrete
store untouched. -/
theorem newoutboundpeer_failure_leaves_store_unchanged_witness :
    storeEventsAt 1 (creepWorker ⟨false, true, true, 9, 4, true, []⟩ ⟨5, 16111, 1⟩) = [] ∧
    applyEvents (Manager.empty.AddAddresses 1 [⟨5, 16111, 1⟩]).1
      (storeEventsAt 1 (creepWorker ⟨false, true, true, 9, 4, true, []⟩ ⟨5, 16111, 1⟩)) =
      (Manager.empty.AddAddresses 1 [⟨5, 16111, 1⟩]).1 := by
  have h := newoutboundpeer_failure_leaves_store_unchanged
    ⟨false, true, true, 9, 4, true, []⟩ ⟨5, 16111, 1⟩
    (Manager.empty.AddAddresses 1 [⟨5, 16111, 1⟩]).1 1 rfl
  exact ⟨h.1, h.2.1⟩

/-- In a list containing an entry keyed `ip`, updating the matching entries
with a key-preserving function makes the lookup return an updated entry. -/
theorem findNode_map_update (l : List Node) (ip : Nat) (f : Node → Node)
    (hf : ∀ n, (f n).ip = n.ip)
    (h : l.any (fun n => n.ip == ip) = true) :
    ∃ n, n.ip = ip ∧
      (l.map (fun n => if n.ip == ip then f n else n)).find? (fun n => n.ip == ip) =
        some (f n) := by
  induction l with
  | nil => simp at h
  | cons n l ih =>
    by_cases hn : (n.ip == ip) = true
    · refine ⟨n, by simpa using hn, ?_⟩
      rw [List.map_cons, if_pos hn, List.find?_cons_of_pos _ (by simp [hf n]; simpa using hn)]
    · have h' : l.any (fun n => n.ip == ip) = true := by
        rcases (List.any_eq_true.mp h) with ⟨x, hx, hpx⟩
        rcases List.mem_cons.mp hx with rfl | hx'
        · exact absurd hpx (by simpa using hn)
        · exact List.any_eq_true.mpr ⟨x, hx', hpx⟩
      obtain ⟨n0, hn0, hfind⟩ := ih h'
      refine ⟨n0, hn0, ?_⟩
      rw [List.map_cons, if_neg hn, List.find?_cons_of_neg _ (by simpa using hn), hfind]

/-- Appending a fresh entry keyed `ip` to a list with no such key makes the
lookup return exactly that entry. -/
theorem findNode_append_fresh (l : List Node) (nd : Node) (ip : Nat)
    (h : l.any (fun n => n.ip == ip) = false) (hnd : (nd.ip == ip) = true) :
    (l ++ [nd]).find? (fun n => n.ip == ip) = some nd := by
  induction l with
  | nil =>
    rw [List.nil_append]
    exact List.find?_cons_of_pos _ hnd
  | cons n l ih =>
    rw [List.any_cons, Bool.or_eq_false_iff] at h
    rw [List.cons_append, List.find?_cons_of_neg _ (by simp [h.1])]
    exact ih h.2

/-- After `Good(ip, services, subnetworkID)` at second `t`, the entry keyed
`ip` exists and carries the recorded services, subnetwork ID and the
timestamps `lastSuccess = lastAttempt = t`. -/
theorem findNode_Good (m : Manager) (t ip sv sn : Nat) :
    ∃ nd, (m.Good t ip sv sn).findNode ip = some nd ∧
      nd.services = sv ∧ nd.subnetworkID = sn ∧
      nd.lastSuccess = t ∧ nd.lastAttempt = t := by
  unfold Manager.Good Manager.findNode
  by_cases h : (m.nodes.any (fun n => n.ip == ip)) = true
  · rw [if_pos h]
    obtain ⟨n, _, hfind⟩ := findNode_map_update m.nodes ip
      (fun n => { n with services := sv, subnetworkID := sn,
                         lastSuccess := t, lastAttempt := t })
      (fun _ => rfl) h
    exact ⟨_, hfind, rfl, rfl, rfl, rfl⟩
  · rw [if_neg h]
    exact ⟨_, findNode_append_fresh m.nodes _ ip (by simpa using h) (by simp), rfl, rfl,
      rfl, rfl⟩

/-- Claim C10: when the version message was received but the `addr` wait
times out, the worker's store mutations are exactly `Attempt` followed by
`Good`: the entry keeps the `lastSuccess`, `services` and `subnetworkID`
recorded when the version arrived, nothing reverts them, and the trace ends
with a disconnect. -/
theorem addr_timeout_preserves_good (env : WorkerEnv) (a : NetAddress)
    (m : Manager) (t : Nat)
    (hn : env.newPeerOk = true) (hd : env.dialOk = true)
    (hv : env.versionOk = true) (ha : env.addrOk = false) :
    storeEventsAt t (creepWorker env a) =
      [MgrEvent.attempt t a.ip,
       MgrEvent.good t a.ip env.remoteServices env.remoteSubnetworkID] ∧
    (creepWorker env a).getLast? = some WorkerAction.disconnect ∧
    (∃ nd, (applyEvents m (storeEventsAt t (creepWorker env a))).findNode a.ip = some nd ∧
      nd.services = env.remoteServices ∧ nd.subnetworkID = env.remoteSubnetworkID ∧
      nd.lastSuccess = t ∧ nd.lastAttempt = t) := by
  have htr : creepWorker env a =
      [WorkerAction.newOutboundPeer, WorkerAction.attempt a.ip, WorkerAction.dial,
       WorkerAction.associateConnection,
       WorkerAction.good a.ip env.remoteServices env.remoteSubnetworkID,
       WorkerAction.queueGetAddr, WorkerAction.disconnect] := by
    simp [creepWorker, hn, hd, hv, ha]
  refine ⟨by rw [htr]; rfl, by rw [htr]; rfl, ?_⟩
  rw [htr]
  exact findNode_Good (m.Attempt t a.ip) t a.ip env.remoteServices env.remoteSubnetworkID

/-- Claim C10 witness: a concrete run with version received and `addr`
timed out leaves the entry classified good with the recorded data. -/
theorem addr_timeout_preserves_good_witness :
    ∃ nd, (applyEvents Manager.empty
        (storeEventsAt 7 (creepWorker ⟨true, true, true, 9, 4, false, []⟩
          ⟨5, 16111, 1⟩))).findNode 5 = some nd ∧
      nd.services = 9 ∧ nd.subnetworkID = 4 ∧ nd.lastSuccess = 7 ∧ nd.lastAttempt = 7 :=
  (addr_timeout_preserves_good ⟨true, true, true, 9, 4, false, []⟩ ⟨5, 16111, 1⟩
    Manager.empty 7 rfl rfl rfl rfl).2.2

/-- The invariant of claim C3: any entry that never had a successful
version exchange carries a zero services bitfield. -/
def goodServicesInvariant (m : Manager) : Prop :=
  ∀ nd ∈ m.nodes, nd.lastSuccess = 0 → nd.services = 0

theorem insertAddress_inv (now : Nat) (m : Manager) (a : NetAddress)
    (h : goodServicesInvariant m) :
    goodServicesInvariant (insertAddress now m a).1 := by
  unfold insertAddress
  repeat' split
  any_goals exact h
  intro nd hmem h0
  rcases List.mem_append.mp hmem with hL | hR
  · exact h nd hL h0
  · simp at hR
    subst hR
    rfl

theorem addAddresses_inv (now : Nat) (addrs : List NetAddress) :
    ∀ acc : Manager × Nat, goodServicesInvariant acc.1 →
      goodServicesInvariant
        (addrs.foldl
          (fun acc a =>
            let r := insertAddress now acc.1 a
            (r.1, acc.2 + r.2))
          acc).1 := by
  induction addrs with
  | nil => intro acc h; simpa using h
  | cons a l ih =>
    intro acc h
    simp only [List.foldl_cons]
    exact ih _ (insertAddress_inv now acc.1 a h)

theorem attempt_inv (m : Manager) (t ip : Nat) (h : goodServicesInvariant m) :
    goodServicesInvariant (m.Attempt t ip) := by
  intro nd hmem h0
  simp only [Manager.Attempt, List.mem_map] at hmem
  obtain ⟨n, hn, hnd⟩ := hmem
  by_cases hip : (n.ip == ip) = true
  · rw [if_pos hip] at hnd
    subst hnd
    exact h n hn h0
  · rw [if_neg hip] at hnd
    subst hnd
    exact h n hn h0

theorem good_inv (m : Manager) (t ip sv sn : Nat) (ht : t ≠ 0)
    (h : goodServicesInvariant m) :
    goodServicesInvariant (m.Good t ip sv sn) := by
  unfold Manager.Good
  split
  · intro nd hmem h0
    simp only [List.mem_map] at hmem
    obtain ⟨n, hn, hnd⟩ := hmem
    by_cases hip : (n.ip == ip) = true
    · rw [if_pos hip] at hnd
      subst hnd
      exact absurd h0 ht
    · rw [if_neg hip] at hnd
      subst hnd
      exact h n hn h0
  · intro nd hmem h0
    rcases List.mem_append.mp hmem with hL | hR
    · exact h nd hL h0
    · simp at hR
      subst hR
      exact absurd h0 ht

theorem applyEvent_inv (m : Manager) (e : MgrEvent) (ht : 0 < e.time)
    (h : goodServicesInvariant m) : goodServicesInvariant (applyEvent m e) := by
  cases e with
  | add t addrs => exact addAddresses_inv t addrs (m, 0) h
  | attempt t ip => exact attempt_inv m t ip h
  | good t ip sv sn =>
    have ht0 : 0 < t := ht
    exact good_inv m t ip sv sn (by omega) h

theorem applyEvents_inv (evs : List MgrEvent) :
    ∀ m : Manager, goodServicesInvariant m → (∀ e ∈ evs, 0 < e.time) →
      goodServicesInvariant (applyEvents m evs) := by
  induction evs with
  | nil => intro m h _; simpa [applyEvents] using h
  | cons e l ih =>
    intro m h ht
    simp only [applyEvents, List.foldl_cons]
    exact ih (applyEvent m e) (applyEvent_inv m e (ht e (by simp)) h)
      (fun e' he' => ht e' (by simp [he']))

/-- Claim C3: in every store state reachable from the empty store by
`AddAddresses` / `Attempt` / `Good` events issued at positive wall-clock
times — including additions carrying the `--seeder` and bootstrap
addresses, whose `NetAddress.services` is `requiredServices` — every entry
with `lastSuccess = 0` has a zero services field. -/
theorem never_succeeded_services_zero (evs : List MgrEvent)
    (h : ∀ e ∈ evs, 0 < e.time) :
    ∀ nd ∈ (runEvents evs).nodes, nd.lastSuccess = 0 → nd.services = 0 :=
  applyEvents_inv evs Manager.empty (by intro nd hnd; simp [Manager.empty] at hnd) h

/-- Claim C3 witness: after injecting the `--seeder` address (which carries
`services = requiredServices` in its `NetAddress`), the stored entry has
`services = 0`. -/
theorem never_succeeded_services_zero_witness :
    ∃ nd,
      (runEvents [MgrEvent.add 1
        (seederInject (fun _ => some 5) (Except.ok []) "1.2.3.4" 16111)]).findNode 5 =
        some nd ∧ nd.services = 0 := by
  have h := never_succeeded_services_zero
    [MgrEvent.add 1 (seederInject (fun _ => some 5) (Except.ok []) "1.2.3.4" 16111)]
    (by intro e he; simp at he; subst he; decide)
  exact ⟨⟨5, 16111, 0, 0, 1, 0, 0⟩, by decide, h ⟨5, 16111, 0, 0, 1, 0, 0⟩ (by decide) rfl⟩

/-- The store after inserting one never-attempted address: the state on
which two consecutive `Addresses()` calls are made with no report and no
time elapsed in between. -/
def inflightProbeStore : Manager := (Manager.empty.AddAddresses 1 [⟨5, 16111, 1⟩]).1

/-- The batch returned by the first `Addresses()` call at second 2. -/
def firstBatchIPs : List Nat := (inflightProbeStore.Addresses 2).map NetAddress.ip

/-- The batch returned by the second, consecutive `Addresses()` call, also
at second 2: `Addresses()` does not mutate the store and keeps no in-flight
bookkeeping, so the second call sees the identical state. -/
def secondBatchIPs : List Nat := (inflightProbeStore.Addresses 2).map NetAddress.ip

/-- Claim C2 counterexample: IP 5 is returned by the first `Addresses()`
call and — though neither reported via `Attempt`/`Good`/failure nor past
the 60-second window — returned again by the consecutive second call, so
the two batches are not disjoint. -/
theorem consecutive_addresses_not_disjoint_ctr :
    5 ∈ firstBatchIPs ∧ 5 ∈ secondBatchIPs ∧
    ¬ (∀ x ∈ firstBatchIPs, x ∉ secondBatchIPs) := by
  exact ⟨by decide, by decide, fun hall => hall 5 (by decide) (by decide)⟩

theorem attempt_sets_lastAttempt (m : Manager) (t ip : Nat) :
    ∀ nd ∈ (m.Attempt t ip).nodes, nd.ip = ip → nd.lastAttempt = t := by
  intro nd hmem hip
  simp only [Manager.Attempt, List.mem_map] at hmem
  obtain ⟨n, hn, hnd⟩ := hmem
  by_cases h : (n.ip == ip) = true
  · rw [if_pos h] at hnd
    subst hnd
    rfl
  · rw [if_neg h] at hnd
    subst hnd
    exact absurd (by simpa using hip) h

/-- Claim C2 amended: the store keeps no in-flight bookkeeping, so an IP
handed out by one `Addresses()` call is excluded from a later call only
once the caller has reported it: after `Attempt(ip)` at a nonzero second
`t`, any `Addresses()` call within the next 60 seconds does not return
`ip`. -/
theorem addresses_disjoint_after_attempt_report (m : Manager) (t ip now2 : Nat)
    (ht : t ≠ 0) (hlt : now2 - t < staleThresholdSeconds) :
    ip ∉ ((m.Attempt t ip).Addresses now2).map NetAddress.ip := by
  intro hmem
  simp only [Manager.Addresses, List.map_map, List.mem_map, List.mem_filter] at hmem
  obtain ⟨nd, ⟨hin, helig⟩, hip⟩ := hmem
  have hip' : nd.ip = ip := by simpa [Node.toNetAddress] using hip
  have hatt : nd.lastAttempt = t := attempt_sets_lastAttempt m t ip nd hin hip'
  simp only [eligibleForCrawl, Bool.or_eq_true, beq_iff_eq, decide_eq_true_eq] at helig
  rw [hatt] at helig
  have h60 : staleThresholdSeconds = 60 := rfl
  rw [h60] at hlt
  rcases helig with h | h
  · exact ht h
  · rw [h60] at h
    omega

/-- Claim C2 amended witness: after inserting IP 5 and reporting
`Attempt` at second 2, the `Addresses()` call at second 30 no longer
returns 5. -/
theorem addresses_disjoint_after_attempt_report_witness :
    5 ∉ ((inflightProbeStore.Attempt 2 5).Addresses 30).map NetAddress.ip :=
  addresses_disjoint_after_attempt_report inflightProbeStore 2 5 30 (by decide) (by decide)

/-- Characterization of the `--seeder` injection: it yields either no
address or exactly one. -/
theorem seederInject_cases (pip : String → Option Nat)
    (lk : Except String (List String)) (s : String) (port : Nat) :
    seederInject pip lk s port = [] ∨
    ∃ ip, seederInject pip lk s port = [mkSeedAddress ip port] := by
  unfold seederInject
  repeat' split
  all_goals first
    | exact Or.inl rfl
    | exact Or.inr ⟨_, rfl⟩

/-- Claim C8: the `--seeder` flag injects at most one address; every
injected address carries the network default port and the
`SFNodeNetwork` (`requiredServices`) service flag; and when the flag does
not parse as an IP, only the first IP returned by the host lookup is used
— any further resolved addresses are discarded. -/
theorem seeder_injects_at_most_one (pip : String → Option Nat)
    (lk : Except String (List String)) (s : String) (port : Nat) :
    (seederInject pip lk s port).length ≤ 1 ∧
    (∀ a ∈ seederInject pip lk s port, a.port = port ∧ a.services = requiredServices) ∧
    (∀ h rest, seederInject pip (Except.ok (h :: rest)) s port =
      seederInject pip (Except.ok [h]) s port) := by
  refine ⟨?_, ?_, ?_⟩
  · rcases seederInject_cases pip lk s port with h | ⟨ip, h⟩ <;> simp [h]
  · intro a ha
    rcases seederInject_cases pip lk s port with h | ⟨ip, h⟩ <;> rw [h] at ha
    · simp at ha
    · simp at ha
      subst ha
      exact ⟨rfl, rfl⟩
  · intro h rest
    rfl

/-- Claim C8 witness: a concrete `--seeder` value parsing as an IP injects
exactly an address with the default port and `requiredServices`. -/
theorem seeder_injects_at_most_one_witness :
    ⟨5, 16111, 1⟩ ∈ seederInject (fun _ => some 5) (Except.ok []) "1.2.3.4" 16111 ∧
    (⟨5, 16111, 1⟩ : NetAddress).port = 16111 ∧
    (⟨5, 16111, 1⟩ : NetAddress).services = requiredServices := by
  have h := (seeder_injects_at_most_one (fun _ => some 5) (Except.ok []) "1.2.3.4"
    16111).2.1 ⟨5, 16111, 1⟩ (by decide)
  exact ⟨by decide, h⟩

/-- Claim C7: `main` exits with code 1 (with an error message) exactly when
one of the startup initialization steps — config loading, manager
construction, default-port parsing — fails; when all three succeed the
process enters the running phase, regardless of the outcome of the
optional `--seeder` host resolution, which is ignored on failure. -/
theorem startup_exit1_iff (env : StartupEnv) :
    ((∃ msg, mainStartup env = StartupResult.exitFail msg) ↔
      startupInitFailed env = true) ∧
    (startupInitFailed env = false → ∃ l, mainStartup env = StartupResult.running l) := by
  obtain ⟨lc, nm, dp, pip, lk⟩ := env
  cases lc <;> cases nm <;> cases dp <;> simp [mainStartup, startupInitFailed]

/-- Claim C7 witness: with config, manager and port parsing all succeeding
but the `--seeder` host lookup failing, startup still reaches the running
phase. -/
theorem startup_exit1_iff_witness :
    ∃ l, mainStartup
      ⟨Except.ok ⟨"seed.example.com"⟩, Except.ok (), some 16111, fun _ => none,
        fun _ => Except.error "no such host"⟩ = StartupResult.running l :=
  (startup_exit1_iff
    ⟨Except.ok ⟨"seed.example.com"⟩, Except.ok (), some 16111, fun _ => none,
      fun _ => Except.error "no such host"⟩).2 rfl
